import Mathlib

/-!
Shallow embedding of the node-prisma todo REST API
(src/unnamed/part_001 request handlers, src/prisma/schema.prisma data
model, src/unnamed/part_000 migration): relational state and the
create / update / delete / toggle / list request handlers, including the
dependency-validation logic.
-/

namespace TodoApi

/-- Priority enum from prisma/schema.prisma. -/
inductive Priority where
  | LOW | MEDIUM | HIGH | URGENT
deriving DecidableEq, Repr, Inhabited

/-- A row of the todos table (model Todo). Timestamps are Nat milliseconds. -/
structure Todo where
  id : Nat
  title : String
  description : Option String := none
  completed : Bool := false
  priority : Priority := .MEDIUM
  createdAt : Nat := 0
  updatedAt : Nat := 0
  userId : Option Nat := none
  categoryId : Option Nat := none
deriving DecidableEq, Repr, Inhabited

/-- A row of the users table. -/
structure UserRow where
  id : Nat
  name : String := ""
  email : String := ""
deriving DecidableEq, Repr

/-- A row of the categories table. -/
structure CategoryRow where
  id : Nat
  name : String := ""
  description : Option String := none
deriving DecidableEq, Repr

/-- A row of the tags table. -/
structure TagRow where
  id : Nat
  name : String := ""
deriving DecidableEq, Repr

/-- A row of the tags_on_todos join table (composite key todoId+tagId). -/
structure TagJoinRow where
  todoId : Nat
  tagId : Nat
  assignedAt : Nat := 0
deriving DecidableEq, Repr

/-- A row of the notes table. -/
structure NoteRow where
  id : Nat
  content : String := ""
  todoId : Nat
  createdAt : Nat := 0
deriving DecidableEq, Repr

/-- A row of the todo_history table. -/
structure HistoryRow where
  id : Nat
  todoId : Nat
  action : String
  description : String := ""
  createdAt : Nat := 0
deriving DecidableEq, Repr

/-- A row of the attachments table. -/
structure AttachmentRow where
  id : Nat
  filename : String := ""
  filepath : String := ""
  mimeType : String := ""
  todoId : Nat
deriving DecidableEq, Repr

/-- The relational store. deps holds the _TodoDependencies join rows:
(a, b) means todo a depends on todo b. The next fields model the SERIAL
id generators; now models the database clock in milliseconds. -/
structure DB where
  todos : List Todo := []
  users : List UserRow := []
  categories : List CategoryRow := []
  tags : List TagRow := []
  tagJoins : List TagJoinRow := []
  notes : List NoteRow := []
  history : List HistoryRow := []
  attachments : List AttachmentRow := []
  deps : List (Nat × Nat) := []
  nextTodoId : Nat := 1
  nextNoteId : Nat := 1
  nextHistoryId : Nat := 1
  now : Nat := 0
deriving DecidableEq, Repr, Inhabited

/-- The distinct error responses of the handlers in part_001, one per
res.status(4xx/5xx).json payload. -/
inductive ApiError where
  | todoNotFound
  | titleRequired
  | categoryNotFound
  | userNotFound
  | someTagsNotFound
  | someDependenciesNotFound
  | someNotesNotFound
  | selfDependency
  | circularDependency
  | storeFailure
deriving DecidableEq, Repr

/-- HTTP status each error is reported with in part_001. -/
def httpStatus : ApiError → Nat
  | .todoNotFound => 404
  | .storeFailure => 500
  | _ => 400

/-- Error taxonomy of spec section 7. -/
inductive ErrClass where
  | notFound | invalidRef | validation | server
deriving DecidableEq, Repr

/-- Modelled from the spec (section 7 error taxonomy): the class each
concrete handler error belongs to. ValidationFailure covers the missing
required field and the self/circular dependency rejections;
InvalidReference covers a related id that does not exist. -/
def classify : ApiError → ErrClass
  | .todoNotFound => .notFound
  | .titleRequired => .validation
  | .selfDependency => .validation
  | .circularDependency => .validation
  | .storeFailure => .server
  | _ => .invalidRef

/-- prisma.todo.findUnique on id. -/
def getTodo (db : DB) (id : Nat) : Option Todo :=
  db.todos.find? (fun t => t.id == id)

/-- A request list field that may be absent (undefined in the body). -/
def optList (o : Option (List α)) : List α := o.getD []

/-- prisma.todo.update on one row: replaces the row with the matching id. -/
def replaceTodoList (l : List Todo) (id : Nat) (t' : Todo) : List Todo :=
  l.map (fun t => if t.id = id then t' else t)

/-- Category existence pre-check (create step 1 / update step 2). -/
def categoryMissingB (db : DB) : Option Nat → Bool
  | none => false
  | some cid => !(db.categories.any (fun c => c.id == cid))

/-- User existence pre-check (create step 2 / update step 3). -/
def userMissingB (db : DB) : Option Nat → Bool
  | none => false
  | some uid => !(db.users.any (fun u => u.id == uid))

/-- Tag existence pre-check: prisma.tag.count over the requested ids differs
from the request list length (create step 3 / update step 5). -/
def tagsMissingB (db : DB) (l : List Nat) : Bool :=
  !l.isEmpty && ((db.tags.filter (fun tg => decide (tg.id ∈ l))).length != l.length)

/-- Dependency existence pre-check: prisma.todo.count over the requested ids
differs from the request list length (create step 4 / update step 6). -/
def depsMissingB (db : DB) (l : List Nat) : Bool :=
  !l.isEmpty && ((db.todos.filter (fun t => decide (t.id ∈ l))).length != l.length)

/-- dependencies.includes(id) self-dependency guard (update step 7). -/
def selfDepB (id : Nat) (l : List Nat) : Bool :=
  !l.isEmpty && decide (id ∈ l)

/-- ids of the todos that directly depend on id
(findMany where dependencies some id, update step 7). -/
def dependentIds (db : DB) (id : Nat) : List Nat :=
  (db.todos.filter (fun t => decide ((t.id, id) ∈ db.deps))).map (fun t => t.id)

/-- Direct-reverse-edge circular-dependency guard (update step 7): some
proposed dependency already depends on the todo being updated. -/
def circularB (db : DB) (id : Nat) (l : List Nat) : Bool :=
  !l.isEmpty && l.any (fun d => decide (d ∈ dependentIds db id))

/-- removeNotes pre-check: every note id to remove must be a note of this
todo (update step 8). -/
def removeNotesMissingB (db : DB) (id : Nat) (l : List Nat) : Bool :=
  !l.isEmpty && ((db.notes.filter (fun n => decide (n.id ∈ l) && n.todoId == id)).length != l.length)

/-- tx.tagsOnTodos.create loop of the create handler: plain inserts; a
duplicate (todoId, tagId) pair violates the composite primary key and
aborts the whole transaction. -/
def insertTagRows (joins : List TagJoinRow) (id : Nat) (now : Nat) :
    List Nat → Except ApiError (List TagJoinRow)
  | [] => .ok joins
  | tg :: rest =>
    if joins.any (fun j => j.todoId == id && j.tagId == tg) then .error .storeFailure
    else insertTagRows (joins ++ [⟨id, tg, now⟩]) id now rest

/-- Tag-insert loop of the update transaction: the snapshot of the todo's
current tag ids was read once before the loop; tags in the snapshot are
skipped, the rest are inserted (composite primary key still applies). -/
def insertTagRowsSkip (joins : List TagJoinRow) (snapshot : List Nat) (id : Nat) (now : Nat) :
    List Nat → Except ApiError (List TagJoinRow)
  | [] => .ok joins
  | tg :: rest =>
    if decide (tg ∈ snapshot) then insertTagRowsSkip joins snapshot id now rest
    else if joins.any (fun j => j.todoId == id && j.tagId == tg) then .error .storeFailure
    else insertTagRowsSkip (joins ++ [⟨id, tg, now⟩]) snapshot id now rest

/-- Add-new-tags block of the update transaction (part_001 lines 806-827). -/
def addTagsUpdate (joins : List TagJoinRow) (id : Nat) (now : Nat) (l : List Nat) :
    Except ApiError (List TagJoinRow) :=
  if l.isEmpty then .ok joins
  else insertTagRowsSkip joins ((joins.filter (fun j => j.todoId == id)).map (fun j => j.tagId)) id now l

/-- tx.note.create loop: append a note row per content string. -/
def addNoteRows (notes : List NoteRow) (nid : Nat) (id : Nat) (now : Nat) :
    List String → (List NoteRow × Nat)
  | [] => (notes, nid)
  | c :: rest => addNoteRows (notes ++ [⟨nid, c, id, now⟩]) (nid + 1) id now rest

/-- Implicit many-to-many connect: inserts each edge (id, d) if not already
present (connect is idempotent on the join table). -/
def connectDeps (es : List (Nat × Nat)) (id : Nat) : List Nat → List (Nat × Nat)
  | [] => es
  | d :: rest => connectDeps (if (id, d) ∈ es then es else es ++ [(id, d)]) id rest

/-- Body of POST /api/todos. -/
structure CreateReq where
  title : String := ""
  description : Option String := none
  priority : Option Priority := none
  categoryId : Option Nat := none
  userId : Option Nat := none
  tagIds : List Nat := []
  notes : List String := []
  dependencies : List Nat := []
deriving DecidableEq, Repr

/-- 201 response of POST /api/todos (todo plus its stats block). -/
structure CreateResp where
  todo : Todo
  userTodoCount : Nat
  categoryTodoCount : Nat
  totalTodoCount : Nat
deriving DecidableEq, Repr, Inhabited

/-- The todo row inserted by tx.todo.create: completed takes the schema
default false, priority defaults to MEDIUM, an empty description is falsy
and stored as null. -/
def mkNewTodo (db : DB) (req : CreateReq) : Todo :=
  { id := db.nextTodoId
    title := req.title
    description := match req.description with
      | some d => if d = "" then none else some d
      | none => none
    completed := false
    priority := req.priority.getD .MEDIUM
    createdAt := db.now
    updatedAt := db.now
    userId := req.userId
    categoryId := req.categoryId }

/-- POST /api/todos handler (part_001 lines 438-631). -/
def createTodo (db : DB) (req : CreateReq) : Except ApiError (DB × CreateResp) :=
  if req.title = "" then .error .titleRequired
  else if categoryMissingB db req.categoryId then .error .categoryNotFound
  else if userMissingB db req.userId then .error .userNotFound
  else if tagsMissingB db req.tagIds then .error .someTagsNotFound
  else if depsMissingB db req.dependencies then .error .someDependenciesNotFound
  else
    match insertTagRows db.tagJoins db.nextTodoId db.now req.tagIds with
    | .error e => .error e
    | .ok joins' =>
      .ok ({ db with
              todos := db.todos ++ [mkNewTodo db req]
              deps := connectDeps db.deps db.nextTodoId req.dependencies
              tagJoins := joins'
              notes := (addNoteRows db.notes db.nextNoteId db.nextTodoId db.now req.notes).1
              history := db.history ++
                [⟨db.nextHistoryId, db.nextTodoId, "CREATED", "Todo was created", db.now⟩]
              nextTodoId := db.nextTodoId + 1
              nextNoteId := (addNoteRows db.notes db.nextNoteId db.nextTodoId db.now req.notes).2
              nextHistoryId := db.nextHistoryId + 1 },
            { todo := mkNewTodo db req
              userTodoCount := (match req.userId with
                | some u => db.todos.countP (fun t => decide (t.userId = some u))
                | none => 0) + 1
              categoryTodoCount := (match req.categoryId with
                | some c => db.todos.countP (fun t => decide (t.categoryId = some c))
                | none => 0) + 1
              totalTodoCount := db.todos.length + 1 })

/-- Body of PUT /api/todos/:id: absent fields are undefined. description
present-with-null is representable as some none. -/
structure UpdateReq where
  title : Option String := none
  description : Option (Option String) := none
  completed : Option Bool := none
  priority : Option Priority := none
  categoryId : Option Nat := none
  userId : Option Nat := none
  tagIds : Option (List Nat) := none
  notes : Option (List String) := none
  dependencies : Option (List Nat) := none
  removeTags : List Nat := []
  removeNotes : List Nat := []
  removeDependencies : List Nat := []
deriving DecidableEq, Repr

/-- Response of PUT /api/todos/:id. -/
structure UpdateResp where
  todo : Todo
  changedFields : List String
deriving DecidableEq, Repr, Inhabited

/-- Partial field application of the update transaction: only fields present
in the request are written; updatedAt is auto-refreshed. -/
def applyPartial (t : Todo) (req : UpdateReq) (now : Nat) : Todo :=
  { t with
    title := req.title.getD t.title
    description := req.description.getD t.description
    completed := req.completed.getD t.completed
    priority := req.priority.getD t.priority
    categoryId := match req.categoryId with
      | some c => some c
      | none => t.categoryId
    userId := match req.userId with
      | some u => some u
      | none => t.userId
    updatedAt := now }

/-- Changed-field tracking of update step 4. -/
def computeChanges (t : Todo) (req : UpdateReq) : List String :=
  (match req.title with
    | some s => if s ≠ t.title then ["title"] else []
    | none => []) ++
  (match req.description with
    | some d => if d ≠ t.description then ["description"] else []
    | none => []) ++
  (match req.completed with
    | some b => if b ≠ t.completed then ["completed"] else []
    | none => []) ++
  (match req.priority with
    | some p => if p ≠ t.priority then ["priority"] else []
    | none => []) ++
  (match req.categoryId with
    | some c => if some c ≠ t.categoryId then ["category"] else []
    | none => []) ++
  (match req.userId with
    | some u => if some u ≠ t.userId then ["user"] else []
    | none => []) ++
  (if !(optList req.tagIds).isEmpty then ["tags"] else []) ++
  (if !(optList req.notes).isEmpty then ["notes"] else []) ++
  (if !(optList req.dependencies).isEmpty then ["dependencies"] else [])

/-- tagsOnTodos.deleteMany of the update transaction (skipped when
removeTags is empty). -/
def removeTagsJoins (db : DB) (id : Nat) (l : List Nat) : List TagJoinRow :=
  if l.isEmpty then db.tagJoins
  else db.tagJoins.filter (fun j => !(j.todoId == id && decide (j.tagId ∈ l)))

/-- note.deleteMany of the update transaction (skipped when removeNotes is
empty). -/
def removeNotesRows (notes : List NoteRow) (l : List Nat) : List NoteRow :=
  if l.isEmpty then notes else notes.filter (fun n => !(decide (n.id ∈ l)))

/-- dependencies disconnect of the update transaction (skipped when
removeDependencies is empty). -/
def removeDepsEdges (es : List (Nat × Nat)) (id : Nat) (l : List Nat) : List (Nat × Nat) :=
  if l.isEmpty then es else es.filter (fun e => !(e.1 == id && decide (e.2 ∈ l)))

/-- Update step 9: the one transaction performing the core field update,
tag removals/additions, note additions/removals, dependency
connect/disconnect, and the UPDATED history row. -/
def updateTx (db : DB) (id : Nat) (existing : Todo) (req : UpdateReq) :
    Except ApiError (DB × UpdateResp) :=
  match addTagsUpdate (removeTagsJoins db id req.removeTags) id db.now (optList req.tagIds) with
  | .error e => .error e
  | .ok joins2 =>
    .ok ({ db with
            todos := replaceTodoList db.todos id (applyPartial existing req db.now)
            tagJoins := joins2
            notes := removeNotesRows
              (addNoteRows db.notes db.nextNoteId id db.now (optList req.notes)).1 req.removeNotes
            deps := removeDepsEdges (connectDeps db.deps id (optList req.dependencies)) id
              req.removeDependencies
            history := db.history ++
              [⟨db.nextHistoryId, id, "UPDATED",
                "Updated fields: " ++ String.intercalate ", " (computeChanges existing req),
                db.now⟩]
            nextNoteId := (addNoteRows db.notes db.nextNoteId id db.now (optList req.notes)).2
            nextHistoryId := db.nextHistoryId + 1 },
          { todo := applyPartial existing req db.now
            changedFields := computeChanges existing req })

/-- PUT /api/todos/:id handler (part_001 lines 634-940). -/
def updateTodo (db : DB) (id : Nat) (req : UpdateReq) : Except ApiError (DB × UpdateResp) :=
  match getTodo db id with
  | none => .error .todoNotFound
  | some existing =>
    if categoryMissingB db req.categoryId then .error .categoryNotFound
    else if userMissingB db req.userId then .error .userNotFound
    else if tagsMissingB db (optList req.tagIds) then .error .someTagsNotFound
    else if depsMissingB db (optList req.dependencies) then .error .someDependenciesNotFound
    else if selfDepB id (optList req.dependencies) then .error .selfDependency
    else if circularB db id (optList req.dependencies) then .error .circularDependency
    else if removeNotesMissingB db id req.removeNotes then .error .someNotesNotFound
    else updateTx db id existing req

/-- Response of DELETE /api/todos/:id. The percentage strings (toFixed)
are presentation-only and omitted. -/
structure DeleteResp where
  id : Nat
  deleted : Bool
  relTags : Nat
  relNotes : Nat
  relAttachments : Nat
  relHistory : Nat
  relDependencies : Nat
  relDependents : Nat
  impactUserTodoCount : Int
  impactCategoryTodoCount : Int
  impactTotalTodoCount : Int
  ageInDays : Nat
  completionTime : Option Nat
  dependentTodos : List (Nat × String)
deriving DecidableEq, Repr, Inhabited

/-- DELETE /api/todos/:id handler (part_001 lines 943-1092). The single
tx.todo.delete cascades to the owned child rows and both directions of
the dependency join table (ON DELETE CASCADE in part_000). -/
def deleteTodo (db : DB) (id : Nat) : Except ApiError (DB × DeleteResp) :=
  match getTodo db id with
  | none => .error .todoNotFound
  | some existing =>
    .ok ({ db with
            todos := db.todos.filter (fun t => !(t.id == id))
            tagJoins := db.tagJoins.filter (fun j => !(j.todoId == id))
            notes := db.notes.filter (fun n => !(n.todoId == id))
            history := db.history.filter (fun h => !(h.todoId == id))
            attachments := db.attachments.filter (fun a => !(a.todoId == id))
            deps := db.deps.filter (fun e => !(e.1 == id || e.2 == id)) },
          { id := id
            deleted := true
            relTags := (db.tagJoins.filter (fun j => j.todoId == id)).length
            relNotes := (db.notes.filter (fun n => n.todoId == id)).length
            relAttachments := (db.attachments.filter (fun a => a.todoId == id)).length
            relHistory := (db.history.filter (fun h => h.todoId == id)).length
            relDependencies := (db.deps.filter (fun e => e.1 == id)).length
            relDependents := ((db.todos.filter (fun t => decide ((t.id, id) ∈ db.deps))).map
              (fun t => (t.id, t.title))).length
            impactUserTodoCount := ((match existing.userId with
              | some u => db.todos.countP (fun t => decide (t.userId = some u))
              | none => 0 : Nat) : Int) - 1
            impactCategoryTodoCount := ((match existing.categoryId with
              | some c => db.todos.countP (fun t => decide (t.categoryId = some c))
              | none => 0 : Nat) : Int) - 1
            impactTotalTodoCount := (db.todos.length : Int) - 1
            ageInDays := (db.now - existing.createdAt) / 86400000
            completionTime := if existing.completed then
                some ((existing.updatedAt - existing.createdAt) / 86400000)
              else none
            dependentTodos := (db.todos.filter (fun t => decide ((t.id, id) ∈ db.deps))).map
              (fun t => (t.id, t.title)) })

/-- Response of PATCH /api/todos/:id/toggle. Stats are the pre-mutation
reads; the completion-rate strings (toFixed) are presentation-only and
omitted. -/
structure ToggleResp where
  todo : Todo
  uncompletedDependencies : List Todo
  dependentTodosCount : Nat
  blockedTodos : List (Nat × String)
  userStats : Option (Nat × Nat)
  categoryStats : Option (Nat × Nat)
  totalTodos : Nat
  totalCompletedAfter : Int
  ageInDays : Nat
  timeToComplete : Option Nat
deriving DecidableEq, Repr, Inhabited

/-- State change of the toggle transaction (part_001 lines 1248-1271):
flip completed unconditionally, append a COMPLETED or REOPENED history
row. -/
def toggleState (db : DB) (id : Nat) (t : Todo) : DB :=
  { db with
    todos := replaceTodoList db.todos id { t with completed := !t.completed, updatedAt := db.now }
    history := db.history ++
      [⟨db.nextHistoryId, id,
        if !t.completed then "COMPLETED" else "REOPENED",
        if !t.completed then "Todo was marked as completed" else "Todo was reopened",
        db.now⟩]
    nextHistoryId := db.nextHistoryId + 1 }

/-- Response assembly of the toggle handler (steps 2-9 reads plus the
post-transaction response shape). -/
def toggleResp (db : DB) (id : Nat) (t : Todo) : ToggleResp :=
  let depRows := db.todos.filter (fun d => decide ((id, d.id) ∈ db.deps))
  let totalCompleted := db.todos.countP (fun x => x.completed)
  let blocked := (db.todos.filter (fun x => decide ((x.id, id) ∈ db.deps) &&
      !(db.todos.any (fun o => decide ((x.id, o.id) ∈ db.deps) && !(o.id == id) && !o.completed)))).map
    (fun x => (x.id, x.title))
  { todo := { t with completed := !t.completed, updatedAt := db.now }
    uncompletedDependencies := if !t.completed then depRows.filter (fun d => !d.completed) else []
    dependentTodosCount := (db.todos.filter (fun x => decide ((x.id, id) ∈ db.deps))).length
    blockedTodos := if !t.completed then blocked else []
    userStats := match t.userId with
      | some u => some (db.todos.countP (fun x => decide (x.userId = some u)),
                        db.todos.countP (fun x => decide (x.userId = some u) && x.completed))
      | none => none
    categoryStats := match t.categoryId with
      | some c => some (db.todos.countP (fun x => decide (x.categoryId = some c)),
                        db.todos.countP (fun x => decide (x.categoryId = some c) && x.completed))
      | none => none
    totalTodos := db.todos.length
    totalCompletedAfter := if !t.completed then (totalCompleted : Int) + 1
      else (totalCompleted : Int) - 1
    ageInDays := (db.now - t.createdAt) / 86400000
    timeToComplete := if !t.completed then some ((db.now - t.createdAt) / 86400000) else none }

/-- PATCH /api/todos/:id/toggle handler (part_001 lines 1095-1306). -/
def toggleTodo (db : DB) (id : Nat) : Except ApiError (DB × ToggleResp) :=
  match getTodo db id with
  | none => .error .todoNotFound
  | some existing => .ok (toggleState db id existing, toggleResp db id existing)

/-- Query string of GET /api/todos. -/
structure ListQuery where
  page : Nat := 1
  limit : Nat := 10
  completed : Option Bool := none
  search : Option String := none
  priority : Option Priority := none
  category : Option Nat := none
  user : Option Nat := none
  tag : Option Nat := none
deriving DecidableEq, Repr

/-- Pagination block of the list response. -/
structure Pagination where
  total : Nat
  totalPages : Nat
  currentPage : Nat
  limit : Nat
deriving DecidableEq, Repr

/-- Response of GET /api/todos (claim-relevant fields). -/
structure ListResp where
  data : List Todo
  pagination : Pagination
  statsTotal : Nat
  statsCompleted : Nat
deriving DecidableEq, Repr

/-- Characters of a string, lowercased. -/
def lowerChars (s : String) : List Char := s.data.map Char.toLower

/-- needle occurs as a contiguous sublist of hay. -/
def isInfixB (needle : List Char) : List Char → Bool
  | [] => needle.isEmpty
  | c :: rest => needle.isPrefixOf (c :: rest) || isInfixB needle rest

/-- Case-insensitive substring containment (contains, mode insensitive). -/
def containsCI (hay needle : String) : Bool :=
  isInfixB (lowerChars needle) (lowerChars hay)

/-- The where clause built by GET /api/todos (part_001 lines 45-79): each
supplied filter adds one conjunct; the search conjunct is a disjunction
over title and description. An empty search string is falsy and ignored. -/
def matchesWhere (db : DB) (q : ListQuery) (t : Todo) : Bool :=
  (match q.completed with
    | none => true
    | some b => t.completed == b) &&
  ((match q.search with
    | none => true
    | some s =>
      if s = "" then true
      else containsCI t.title s ||
        (match t.description with
          | some d => containsCI d s
          | none => false)) &&
  ((match q.priority with
    | none => true
    | some p => decide (t.priority = p)) &&
  ((match q.category with
    | none => true
    | some c => decide (t.categoryId = some c)) &&
  ((match q.user with
    | none => true
    | some u => decide (t.userId = some u)) &&
  (match q.tag with
    | none => true
    | some g => db.tagJoins.any (fun j => j.todoId == t.id && j.tagId == g))))))

/-- Insertion step for the createdAt-descending sort. -/
def insertDesc (t : Todo) : List Todo → List Todo
  | [] => [t]
  | x :: xs => if x.createdAt ≤ t.createdAt then t :: x :: xs else x :: insertDesc t xs

/-- orderBy createdAt desc. -/
def sortByCreatedAtDesc : List Todo → List Todo
  | [] => []
  | x :: xs => insertDesc x (sortByCreatedAtDesc xs)

/-- GET /api/todos handler (part_001 lines 22-230). The aggregate raw-SQL
stat blocks, recentlyUpdated, mostUsedTags and relation eager-loading do
not affect the claimed fields and are omitted. -/
def listTodos (db : DB) (q : ListQuery) : ListResp :=
  let skip := (q.page - 1) * q.limit
  let take := q.limit
  let filtered := db.todos.filter (matchesWhere db q)
  { data := ((sortByCreatedAtDesc filtered).drop skip).take take
    pagination :=
      { total := filtered.length
        totalPages := (filtered.length + take - 1) / take
        currentPage := q.page
        limit := take }
    statsTotal := db.todos.length
    statsCompleted := db.todos.countP (fun t => t.completed) }

/-- Store well-formedness: todo ids are unique and below the id generator,
and dependency edges reference existing todos. -/
def WF (db : DB) : Prop :=
  (db.todos.map (fun t => t.id)).Nodup ∧
  (∀ t ∈ db.todos, t.id < db.nextTodoId) ∧
  (∀ e ∈ db.deps, (∃ t ∈ db.todos, t.id = e.1) ∧ (∃ t ∈ db.todos, t.id = e.2))

/-- Filter semantics in the spec's words: every supplied non-search filter
must hold of a returned todo, and the text search disjoins over title and
description. -/
def SpecMatches (db : DB) (q : ListQuery) (t : Todo) : Prop :=
  (∀ b, q.completed = some b → t.completed = b) ∧
  (∀ s, q.search = some s → s ≠ "" →
    (containsCI t.title s = true ∨ ∃ d, t.description = some d ∧ containsCI d s = true)) ∧
  (∀ p, q.priority = some p → t.priority = p) ∧
  (∀ c, q.category = some c → t.categoryId = some c) ∧
  (∀ u, q.user = some u → t.userId = some u) ∧
  (∀ g, q.tag = some g → ∃ j ∈ db.tagJoins, j.todoId = t.id ∧ j.tagId = g)

/-- An update request that only proposes dependency additions. -/
def depsOnlyReq (l : List Nat) : UpdateReq := { dependencies := some l }

/-- An update request that only adds tags. -/
def tagsOnlyReq (l : List Nat) : UpdateReq := { tagIds := some l }

/-- The composite key of a tag-join row. -/
def tagKey (j : TagJoinRow) : Nat × Nat := (j.todoId, j.tagId)

lemma getTodo_id {db : DB} {id : Nat} {t : Todo} (h : getTodo db id = some t) : t.id = id := by
  have h2 := List.find?_some h
  simpa using h2

lemma getTodo_mem {db : DB} {id : Nat} {t : Todo} (h : getTodo db id = some t) : t ∈ db.todos :=
  List.mem_of_find?_eq_some h

lemma replace_find? {l : List Todo} {id : Nat} {t t' : Todo}
    (h : l.find? (fun x => x.id == id) = some t) (hid : t'.id = id) :
    (replaceTodoList l id t').find? (fun x => x.id == id) = some t' := by
  induction l with
  | nil => simp at h
  | cons x xs ih =>
    simp only [replaceTodoList, List.map_cons]
    by_cases hx : x.id = id
    · rw [if_pos hx]
      exact List.find?_cons_of_pos _ (by simp [hid])
    · rw [if_neg hx]
      rw [List.find?_cons_of_neg _ (by simp [hx])]
      rw [List.find?_cons_of_neg _ (by simp [hx])] at h
      exact ih h

lemma mem_insertDesc {t x : Todo} {l : List Todo} : x ∈ insertDesc t l ↔ x = t ∨ x ∈ l := by
  induction l with
  | nil => simp [insertDesc]
  | cons y ys ih =>
    simp only [insertDesc]
    split
    · simp [List.mem_cons]
    · simp only [List.mem_cons, ih]
      tauto

lemma mem_sortDesc {x : Todo} {l : List Todo} : x ∈ sortByCreatedAtDesc l ↔ x ∈ l := by
  induction l with
  | nil => simp [sortByCreatedAtDesc]
  | cons y ys ih => simp [sortByCreatedAtDesc, mem_insertDesc, ih]

lemma mem_connectDeps {id : Nat} :
    ∀ (l : List Nat) (es : List (Nat × Nat)) (e : Nat × Nat),
      e ∈ connectDeps es id l → e ∈ es ∨ ∃ d ∈ l, e = (id, d) := by
  intro l
  induction l with
  | nil =>
    intro es e h
    exact Or.inl h
  | cons d rest ih =>
    intro es e h
    rcases ih _ e h with h1 | ⟨d', hd', he⟩
    · by_cases hmem : (id, d) ∈ es
      · rw [if_pos hmem] at h1
        exact Or.inl h1
      · rw [if_neg hmem] at h1
        rcases List.mem_append.mp h1 with h2 | h2
        · exact Or.inl h2
        · simp only [List.mem_singleton] at h2
          exact Or.inr ⟨d, List.mem_cons_self d rest, h2⟩
    · exact Or.inr ⟨d', List.mem_cons_of_mem d hd', he⟩

lemma filter_count_lt (todos : List Todo) (D : List Nat)
    (hn : (todos.map (fun t => t.id)).Nodup) (d₀ : Nat) (hd₀ : d₀ ∈ D)
    (hmiss : ∀ t ∈ todos, t.id ≠ d₀) :
    (todos.filter (fun t => decide (t.id ∈ D))).length < D.length := by
  classical
  set M := todos.filter (fun t => decide (t.id ∈ D)) with hM
  have hsub : List.Sublist M todos := List.filter_sublist todos
  have hmn : (M.map (fun t => t.id)).Nodup := hn.sublist (hsub.map (fun t => t.id))
  have hsubset : (M.map (fun t => t.id)).toFinset ⊆ D.toFinset.erase d₀ := by
    intro i hi
    simp only [List.mem_toFinset, List.mem_map] at hi
    obtain ⟨t, htM, rfl⟩ := hi
    have h2 := List.mem_filter.mp htM
    have hiD : t.id ∈ D := by simpa using h2.2
    exact Finset.mem_erase.mpr ⟨hmiss t h2.1, List.mem_toFinset.mpr hiD⟩
  have h1 : M.length = (M.map (fun t => t.id)).toFinset.card := by
    rw [List.toFinset_card_of_nodup hmn, List.length_map]
  have h2 : (D.toFinset.erase d₀).card = D.toFinset.card - 1 :=
    Finset.card_erase_of_mem (List.mem_toFinset.mpr hd₀)
  have h3 : 0 < D.toFinset.card := Finset.card_pos.mpr ⟨d₀, List.mem_toFinset.mpr hd₀⟩
  have h4 : D.toFinset.card ≤ D.length := List.toFinset_card_le _
  have h5 := Finset.card_le_card hsubset
  omega

lemma exists_of_count_eq (todos : List Todo) (D : List Nat)
    (hn : (todos.map (fun t => t.id)).Nodup)
    (h : (todos.filter (fun t => decide (t.id ∈ D))).length = D.length) :
    ∀ d ∈ D, ∃ t ∈ todos, t.id = d := by
  intro d hd
  by_contra hc
  push_neg at hc
  exact absurd h (Nat.ne_of_lt (filter_count_lt todos D hn d hd hc))

lemma depsMissingB_false {db : DB} {D : List Nat} (h : depsMissingB db D = false) :
    D = [] ∨ (db.todos.filter (fun t => decide (t.id ∈ D))).length = D.length := by
  cases D with
  | nil => exact Or.inl rfl
  | cons d rest =>
    right
    simpa [depsMissingB] using h

lemma depsMissingB_true {db : DB} {D : List Nat} (hwf : WF db) {d₀ : Nat} (hd₀ : d₀ ∈ D)
    (hmiss : ∀ t ∈ db.todos, t.id ≠ d₀) : depsMissingB db D = true := by
  have hlt := filter_count_lt db.todos D hwf.1 d₀ hd₀ hmiss
  have hne := List.ne_nil_of_mem hd₀
  unfold depsMissingB
  cases D with
  | nil => exact absurd rfl hne
  | cons d rest => simpa using Nat.ne_of_lt hlt

lemma searchClause_iff (t : Todo) (srch : Option String) :
    (match srch with
      | none => true
      | some s =>
        if s = "" then true
        else containsCI t.title s ||
          (match t.description with
            | some d => containsCI d s
            | none => false)) = true ↔
    (∀ s, srch = some s → s ≠ "" →
      (containsCI t.title s = true ∨ ∃ d, t.description = some d ∧ containsCI d s = true)) := by
  cases srch with
  | none => simp
  | some s =>
    by_cases hs : s = ""
    · simp [hs]
    · cases hd : t.description with
      | none => simp [hs, hd]
      | some d => simp [hs, hd]

lemma matchesWhere_iff (db : DB) (q : ListQuery) (t : Todo) :
    matchesWhere db q t = true ↔ SpecMatches db q t := by
  unfold matchesWhere SpecMatches
  simp only [Bool.and_eq_true]
  refine and_congr ?_ (and_congr ?_ (and_congr ?_ (and_congr ?_ (and_congr ?_ ?_))))
  · cases q.completed <;> simp
  · exact searchClause_iff t q.search
  · cases q.priority <;> simp
  · cases q.category <;> simp
  · cases q.user <;> simp
  · cases q.tag with
    | none => simp
    | some g =>
      simp only [List.any_eq_true, Bool.and_eq_true, beq_iff_eq, Option.some.injEq]
      constructor
      · rintro ⟨j, hj, h1, h2⟩ g' hg'
        subst hg'
        exact ⟨j, hj, h1, h2⟩
      · intro hall
        obtain ⟨j, hj, h1, h2⟩ := hall g rfl
        exact ⟨j, hj, h1, h2⟩

lemma createTodo_ok_inv {db : DB} {req : CreateReq} {db' : DB} {r : CreateResp}
    (h : createTodo db req = .ok (db', r)) :
    depsMissingB db req.dependencies = false ∧
    r.todo = mkNewTodo db req ∧
    db'.todos = db.todos ++ [mkNewTodo db req] ∧
    db'.deps = connectDeps db.deps db.nextTodoId req.dependencies := by
  unfold createTodo at h
  split at h
  · exact absurd h (by simp)
  · split at h
    · exact absurd h (by simp)
    · split at h
      · exact absurd h (by simp)
      · split at h
        · exact absurd h (by simp)
        · split at h
          case isTrue => exact absurd h (by simp)
          case isFalse h5 =>
            split at h
            · exact absurd h (by simp)
            · injection h with h
              rw [Prod.mk.injEq] at h
              obtain ⟨h1, h2⟩ := h
              subst h1
              subst h2
              exact ⟨by simpa using h5, rfl, rfl, rfl⟩

lemma updateTodo_ok_inv {db : DB} {id : Nat} {req : UpdateReq} {db' : DB} {r : UpdateResp}
    (h : updateTodo db id req = .ok (db', r)) :
    ∃ t joins2, getTodo db id = some t ∧
      tagsMissingB db (optList req.tagIds) = false ∧
      depsMissingB db (optList req.dependencies) = false ∧
      selfDepB id (optList req.dependencies) = false ∧
      circularB db id (optList req.dependencies) = false ∧
      addTagsUpdate (removeTagsJoins db id req.removeTags) id db.now (optList req.tagIds) =
        .ok joins2 ∧
      db'.todos = replaceTodoList db.todos id (applyPartial t req db.now) ∧
      db'.tagJoins = joins2 ∧
      db'.tags = db.tags ∧
      db'.users = db.users ∧
      db'.categories = db.categories ∧
      db'.now = db.now ∧
      db'.deps = removeDepsEdges (connectDeps db.deps id (optList req.dependencies)) id
        req.removeDependencies ∧
      r.todo = applyPartial t req db.now := by
  unfold updateTodo at h
  split at h
  · exact absurd h (by simp)
  case h_2 t heq =>
    split at h
    · exact absurd h (by simp)
    · split at h
      · exact absurd h (by simp)
      · split at h
        case isTrue => exact absurd h (by simp)
        case isFalse h3 =>
          split at h
          case isTrue => exact absurd h (by simp)
          case isFalse h4 =>
            split at h
            case isTrue => exact absurd h (by simp)
            case isFalse h5 =>
              split at h
              case isTrue => exact absurd h (by simp)
              case isFalse h6 =>
                split at h
                · exact absurd h (by simp)
                · unfold updateTx at h
                  split at h
                  · exact absurd h (by simp)
                  case h_2 joins2 hadd =>
                    injection h with h
                    rw [Prod.mk.injEq] at h
                    obtain ⟨h1, h2⟩ := h
                    subst h1
                    subst h2
                    exact ⟨t, joins2, heq, by simpa using h3, by simpa using h4,
                      by simpa using h5, by simpa using h6, hadd,
                      rfl, rfl, rfl, rfl, rfl, rfl, rfl, rfl⟩

lemma deleteTodo_ok_inv {db : DB} {id : Nat} {db' : DB} {r : DeleteResp}
    (h : deleteTodo db id = .ok (db', r)) :
    db'.todos = db.todos.filter (fun t => !(t.id == id)) ∧
    db'.tagJoins = db.tagJoins.filter (fun j => !(j.todoId == id)) ∧
    db'.notes = db.notes.filter (fun n => !(n.todoId == id)) ∧
    db'.history = db.history.filter (fun x => !(x.todoId == id)) ∧
    db'.attachments = db.attachments.filter (fun a => !(a.todoId == id)) ∧
    db'.deps = db.deps.filter (fun e => !(e.1 == id || e.2 == id)) := by
  unfold deleteTodo at h
  split at h
  · exact absurd h (by simp)
  · injection h with h
    rw [Prod.mk.injEq] at h
    obtain ⟨h1, h2⟩ := h
    subst h1
    exact ⟨rfl, rfl, rfl, rfl, rfl, rfl⟩

lemma toggleTodo_ok {db : DB} {id : Nat} {t : Todo} (h : getTodo db id = some t) :
    toggleTodo db id = .ok (toggleState db id t, toggleResp db id t) := by
  unfold toggleTodo
  rw [h]

lemma insertTagRowsSkip_mono {id now : Nat} :
    ∀ (l : List Nat) (joins : List TagJoinRow) (snapshot : List Nat) (out : List TagJoinRow),
      insertTagRowsSkip joins snapshot id now l = .ok out → ∀ j ∈ joins, j ∈ out := by
  intro l
  induction l with
  | nil =>
    intro joins snapshot out h j hj
    unfold insertTagRowsSkip at h
    injection h with h
    exact h ▸ hj
  | cons tg rest ih =>
    intro joins snapshot out h j hj
    unfold insertTagRowsSkip at h
    split at h
    · exact ih _ _ _ h j hj
    · split at h
      · exact absurd h (by simp)
      · exact ih _ _ _ h j (List.mem_append.mpr (Or.inl hj))

lemma insertTagRowsSkip_ok_mem {id now : Nat} :
    ∀ (l : List Nat) (joins : List TagJoinRow) (snapshot : List Nat) (out : List TagJoinRow),
      insertTagRowsSkip joins snapshot id now l = .ok out →
      (∀ tg ∈ snapshot, ∃ j ∈ joins, j.todoId = id ∧ j.tagId = tg) →
      ∀ tg ∈ l, ∃ j ∈ out, j.todoId = id ∧ j.tagId = tg := by
  intro l
  induction l with
  | nil =>
    intro joins snapshot out h hsnap tg htg
    cases htg
  | cons tg0 rest ih =>
    intro joins snapshot out h hsnap tg htg
    unfold insertTagRowsSkip at h
    split at h
    case isTrue hin =>
      rcases List.mem_cons.mp htg with rfl | htg'
      · obtain ⟨j, hj, hj1, hj2⟩ := hsnap tg (by simpa using hin)
        exact ⟨j, insertTagRowsSkip_mono rest joins snapshot out h j hj, hj1, hj2⟩
      · exact ih _ _ _ h hsnap tg htg'
    case isFalse hnin =>
      split at h
      · exact absurd h (by simp)
      case isFalse hany =>
        rcases List.mem_cons.mp htg with rfl | htg'
        · have hmem : (⟨id, tg, now⟩ : TagJoinRow) ∈ joins ++ [⟨id, tg, now⟩] := by simp
          exact ⟨_, insertTagRowsSkip_mono rest _ snapshot out h _ hmem, rfl, rfl⟩
        · have hsnap' : ∀ s ∈ snapshot,
              ∃ j ∈ joins ++ [⟨id, tg0, now⟩], j.todoId = id ∧ j.tagId = s := by
            intro s hs
            obtain ⟨j, hj, h1, h2⟩ := hsnap s hs
            exact ⟨j, List.mem_append.mpr (Or.inl hj), h1, h2⟩
          exact ih _ _ _ h hsnap' tg htg'

lemma insertTagRowsSkip_all_skip {id now : Nat} :
    ∀ (l : List Nat) (joins : List TagJoinRow) (snapshot : List Nat),
      (∀ tg ∈ l, tg ∈ snapshot) →
      insertTagRowsSkip joins snapshot id now l = .ok joins := by
  intro l
  induction l with
  | nil =>
    intro joins snapshot h
    rfl
  | cons tg rest ih =>
    intro joins snapshot h
    unfold insertTagRowsSkip
    rw [if_pos (by simpa using h tg (List.mem_cons_self tg rest))]
    exact ih joins snapshot (fun s hs => h s (List.mem_cons_of_mem _ hs))

lemma insertTagRowsSkip_nodup {id now : Nat} :
    ∀ (l : List Nat) (joins : List TagJoinRow) (snapshot : List Nat) (out : List TagJoinRow),
      insertTagRowsSkip joins snapshot id now l = .ok out →
      (joins.map tagKey).Nodup → (out.map tagKey).Nodup := by
  intro l
  induction l with
  | nil =>
    intro joins snapshot out h hn
    unfold insertTagRowsSkip at h
    injection h with h
    exact h ▸ hn
  | cons tg rest ih =>
    intro joins snapshot out h hn
    unfold insertTagRowsSkip at h
    split at h
    · exact ih _ _ _ h hn
    · split at h
      · exact absurd h (by simp)
      case isFalse hany =>
        refine ih _ _ _ h ?_
        rw [List.map_append]
        refine List.Nodup.append hn (by simp) ?_
        intro x hx hx2
        simp only [tagKey, List.map_cons, List.map_nil, List.mem_singleton] at hx2
        subst hx2
        simp only [List.mem_map] at hx
        obtain ⟨j, hj, hkey⟩ := hx
        have h1 : j.todoId = id := congrArg Prod.fst hkey
        have h2 : j.tagId = tg := congrArg Prod.snd hkey
        exact hany (by
          simp only [List.any_eq_true]
          exact ⟨j, hj, by simp [h1, h2]⟩)

lemma removeTagsJoins_nodup {db : DB} {id : Nat} {l : List Nat}
    (hn : (db.tagJoins.map tagKey).Nodup) :
    ((removeTagsJoins db id l).map tagKey).Nodup := by
  unfold removeTagsJoins
  split
  · exact hn
  · exact hn.sublist ((List.filter_sublist _).map tagKey)

lemma addTagsUpdate_nodup {joins : List TagJoinRow} {id now : Nat} {l : List Nat}
    {out : List TagJoinRow} (h : addTagsUpdate joins id now l = .ok out)
    (hn : (joins.map tagKey).Nodup) : (out.map tagKey).Nodup := by
  unfold addTagsUpdate at h
  split at h
  · injection h with h
    exact h ▸ hn
  · exact insertTagRowsSkip_nodup l _ _ _ h hn

lemma addTagsUpdate_mem {joins : List TagJoinRow} {id now : Nat} {l : List Nat}
    {out : List TagJoinRow} (h : addTagsUpdate joins id now l = .ok out) :
    ∀ tg ∈ l, ∃ j ∈ out, j.todoId = id ∧ j.tagId = tg := by
  unfold addTagsUpdate at h
  split at h
  case isTrue he =>
    intro tg htg
    rw [List.isEmpty_iff] at he
    subst he
    cases htg
  · refine insertTagRowsSkip_ok_mem l _ _ _ h ?_
    intro tg htg
    simp only [List.mem_map] at htg
    obtain ⟨j, hj, rfl⟩ := htg
    have h2 := List.mem_filter.mp hj
    exact ⟨j, h2.1, by simpa using h2.2, rfl⟩

lemma addTagsUpdate_all_present {joins : List TagJoinRow} {id now : Nat} {l : List Nat}
    (h : ∀ tg ∈ l, ∃ j ∈ joins, j.todoId = id ∧ j.tagId = tg) :
    addTagsUpdate joins id now l = .ok joins := by
  unfold addTagsUpdate
  split
  · rfl
  · apply insertTagRowsSkip_all_skip
    intro tg htg
    obtain ⟨j, hj, h1, h2⟩ := h tg htg
    simp only [List.mem_map]
    exact ⟨j, List.mem_filter.mpr ⟨hj, by simp [h1]⟩, h2⟩

lemma getTodo_toggleState (db : DB) (id : Nat) (t : Todo) (h : getTodo db id = some t) :
    getTodo (toggleState db id t) id =
      some { t with completed := !t.completed, updatedAt := db.now } := by
  have hid : ({ t with completed := !t.completed, updatedAt := db.now } : Todo).id = id := by
    show t.id = id
    exact getTodo_id h
  exact replace_find? h hid

lemma toggleState_history_filter (db : DB) (id : Nat) (t : Todo) :
    (toggleState db id t).history.filter (fun x => x.todoId == id) =
      db.history.filter (fun x => x.todoId == id) ++
      [⟨db.nextHistoryId, id, if !t.completed then "COMPLETED" else "REOPENED",
        if !t.completed then "Todo was marked as completed" else "Todo was reopened",
        db.now⟩] := by
  unfold toggleState
  rw [List.filter_append]
  simp

/-- Concrete fixtures used by witnesses. -/
def tA : Todo := { id := 1, title := "alpha" }

def tB : Todo := { id := 2, title := "beta" }

def tC : Todo := { id := 3, title := "gamma" }

/-- Store in which todo 1 depends on 2 and 2 depends on 3. -/
def dbCycle : DB := { todos := [tA, tB, tC], deps := [(1, 2), (2, 3)], nextTodoId := 4 }

/-- C3: the dependency validation is local. In the state where 1 depends on
2 and 2 depends on 3, the update adding the edge 3-depends-on-1 succeeds
and commits the 3-cycle (1,2), (2,3), (3,1): cycles longer than 2 are not
detected or rejected. -/
theorem c3_transitive_cycle_not_detected :
    (updateTodo dbCycle 3 (depsOnlyReq [1])).toOption.map (fun p => p.1.deps) =
      some [(1, 2), (2, 3), (3, 1)] := rfl

/-- C4: a successful create whose request omits completed (the body has no
completed field at all) and priority stores and returns completed = false
and priority = MEDIUM. -/
theorem c4_create_defaults (db : DB) (req : CreateReq) (db' : DB) (r : CreateResp)
    (hwf : WF db) (hok : createTodo db req = .ok (db', r)) (hp : req.priority = none) :
    r.todo.completed = false ∧ r.todo.priority = .MEDIUM ∧
    ∃ t, getTodo db' r.todo.id = some t ∧ t.completed = false ∧ t.priority = .MEDIUM := by
  obtain ⟨hdeps, hrt, htodos, hdeps2⟩ := createTodo_ok_inv hok
  have hcomp : (mkNewTodo db req).completed = false := rfl
  have hpri : (mkNewTodo db req).priority = .MEDIUM := by simp [mkNewTodo, hp]
  refine ⟨by rw [hrt]; rfl, by rw [hrt]; exact hpri, ?_⟩
  refine ⟨mkNewTodo db req, ?_, hcomp, hpri⟩
  have hid : r.todo.id = db.nextTodoId := by rw [hrt]; rfl
  rw [hid]
  unfold getTodo
  rw [htodos, List.find?_append]
  have hnone : db.todos.find? (fun t => t.id == db.nextTodoId) = none := by
    rw [List.find?_eq_none]
    intro x hx
    simp only [beq_iff_eq]
    exact Nat.ne_of_lt (hwf.2.1 x hx)
  rw [hnone]
  have hsame : (mkNewTodo db req).id = db.nextTodoId := rfl
  simp [List.find?_cons_of_pos, hsame]

/-- C5: toggling twice restores the completed flag and appends exactly two
history rows for the todo, one COMPLETED and one REOPENED. -/
theorem c5_toggle_twice (db : DB) (id : Nat) (t : Todo) (h : getTodo db id = some t) :
    ∃ db1 r1 db2 r2, toggleTodo db id = .ok (db1, r1) ∧ toggleTodo db1 id = .ok (db2, r2) ∧
      (∃ t2, getTodo db2 id = some t2 ∧ t2.completed = t.completed) ∧
      ∃ h1 h2,
        db2.history.filter (fun x => x.todoId == id) =
          db.history.filter (fun x => x.todoId == id) ++ [h1, h2] ∧
        ((h1.action = "COMPLETED" ∧ h2.action = "REOPENED") ∨
          (h1.action = "REOPENED" ∧ h2.action = "COMPLETED")) := by
  have h1 := toggleTodo_ok h
  have hget1 := getTodo_toggleState db id t h
  have h2 := toggleTodo_ok hget1
  have hget2 := getTodo_toggleState (toggleState db id t) id
    { t with completed := !t.completed, updatedAt := db.now } hget1
  refine ⟨_, _, _, _, h1, h2, ?_, ?_⟩
  · refine ⟨_, hget2, ?_⟩
    show (!(!t.completed)) = t.completed
    exact Bool.not_not t.completed
  · refine ⟨⟨db.nextHistoryId, id,
        if !t.completed then "COMPLETED" else "REOPENED",
        if !t.completed then "Todo was marked as completed" else "Todo was reopened",
        db.now⟩,
      ⟨(toggleState db id t).nextHistoryId, id,
        if !(!t.completed) then "COMPLETED" else "REOPENED",
        if !(!t.completed) then "Todo was marked as completed" else "Todo was reopened",
        (toggleState db id t).now⟩, ?_, ?_⟩
    · rw [toggleState_history_filter, toggleState_history_filter, List.append_assoc]
      rfl
    · cases hc : t.completed <;> simp [hc]

/-- C6: the toggle transition is unconditional: for every existing todo it
succeeds and flips completed regardless of the completion state of its
dependencies; incomplete dependencies are only reported in the
uncompletedDependencies list of the response. -/
theorem c6_toggle_unconditional (db : DB) (id : Nat) (t : Todo) (h : getTodo db id = some t) :
    ∃ db' r, toggleTodo db id = .ok (db', r) ∧
      r.todo.completed = !t.completed ∧
      (∃ t', getTodo db' id = some t' ∧ t'.completed = !t.completed) ∧
      r.uncompletedDependencies =
        (if !t.completed then
          (db.todos.filter (fun d => decide ((id, d.id) ∈ db.deps))).filter
            (fun d => !d.completed)
        else []) := by
  refine ⟨toggleState db id t, toggleResp db id t, toggleTodo_ok h, rfl, ?_, rfl⟩
  exact ⟨{ t with completed := !t.completed, updatedAt := db.now },
    getTodo_toggleState db id t h, rfl⟩

/-- C7: the list endpoint conjoins all supplied non-search filters, the
text search disjoins over title and description, and pagination.total is
the count of todos matching the combined filter (the unfiltered count is
reported separately in stats.total). -/
theorem c7_list_filters (db : DB) (q : ListQuery) :
    (∀ t ∈ (listTodos db q).data, SpecMatches db q t) ∧
    (listTodos db q).pagination.total = (db.todos.filter (matchesWhere db q)).length ∧
    (∀ t : Todo, matchesWhere db q t = true ↔ SpecMatches db q t) := by
  refine ⟨?_, rfl, fun t => matchesWhere_iff db q t⟩
  intro t ht
  have h1 : t ∈ sortByCreatedAtDesc (db.todos.filter (matchesWhere db q)) :=
    List.mem_of_mem_drop (List.mem_of_mem_take ht)
  have h2 := mem_sortDesc.mp h1
  have h3 := (List.mem_filter.mp h2).2
  exact (matchesWhere_iff db q t).mp h3

/-- C8: update is a frame-respecting partial write: every one of the six
core fields absent from the request keeps its prior value in the stored
row after a successful update. -/
theorem c8_update_frame (db : DB) (id : Nat) (req : UpdateReq) (db' : DB) (r : UpdateResp)
    (t : Todo) (hok : updateTodo db id req = .ok (db', r)) (ht : getTodo db id = some t) :
    ∃ t', getTodo db' id = some t' ∧
      (req.title = none → t'.title = t.title) ∧
      (req.description = none → t'.description = t.description) ∧
      (req.completed = none → t'.completed = t.completed) ∧
      (req.priority = none → t'.priority = t.priority) ∧
      (req.categoryId = none → t'.categoryId = t.categoryId) ∧
      (req.userId = none → t'.userId = t.userId) := by
  obtain ⟨t0, joins2, ht0, _, _, _, _, _, htodos, _⟩ := updateTodo_ok_inv hok
  have heq : t0 = t := by
    rw [ht0] at ht
    exact Option.some.inj ht
  subst heq
  refine ⟨applyPartial t0 req db.now, ?_, ?_, ?_, ?_, ?_, ?_, ?_⟩
  · unfold getTodo
    rw [htodos]
    have hid : (applyPartial t0 req db.now).id = id := by
      show t0.id = id
      exact getTodo_id ht0
    exact replace_find? ht0 hid
  · intro hnone
    simp [applyPartial, hnone]
  · intro hnone
    simp [applyPartial, hnone]
  · intro hnone
    simp [applyPartial, hnone]
  · intro hnone
    simp [applyPartial, hnone]
  · intro hnone
    simp [applyPartial, hnone]
  · intro hnone
    simp [applyPartial, hnone]

/-- C9: after a successful delete the store holds zero notes, history rows,
attachments and tag-join rows for the deleted id, both directions of its
dependency edges are gone, and the todo row itself is gone. -/
theorem c9_delete_cascade (db : DB) (id : Nat) (db' : DB) (r : DeleteResp)
    (hok : deleteTodo db id = .ok (db', r)) :
    db'.notes.countP (fun n => n.todoId == id) = 0 ∧
    db'.history.countP (fun x => x.todoId == id) = 0 ∧
    db'.attachments.countP (fun a => a.todoId == id) = 0 ∧
    db'.tagJoins.countP (fun j => j.todoId == id) = 0 ∧
    (∀ e ∈ db'.deps, e.1 ≠ id ∧ e.2 ≠ id) ∧
    getTodo db' id = none := by
  obtain ⟨ht, hj, hn, hh, ha, hd⟩ := deleteTodo_ok_inv hok
  refine ⟨?_, ?_, ?_, ?_, ?_, ?_⟩
  · rw [hn, List.countP_eq_zero]
    intro a ha2
    simpa using (List.mem_filter.mp ha2).2
  · rw [hh, List.countP_eq_zero]
    intro a ha2
    simpa using (List.mem_filter.mp ha2).2
  · rw [ha, List.countP_eq_zero]
    intro a ha2
    simpa using (List.mem_filter.mp ha2).2
  · rw [hj, List.countP_eq_zero]
    intro a ha2
    simpa using (List.mem_filter.mp ha2).2
  · rw [hd]
    intro e he
    have h2 := (List.mem_filter.mp he).2
    simp only [Bool.not_eq_true', Bool.or_eq_false_iff, beq_eq_false_iff_ne] at h2
    exact h2
  · unfold getTodo
    rw [ht, List.find?_eq_none]
    intro x hx
    simpa using (List.mem_filter.mp hx).2

/-- C1 (amended): on update, a dependency list containing the todo's own id
is rejected by the self-dependency check with HTTP 400 (a ValidationFailure).
On create, the todo's id is freshly generated and never names an existing
row, so a dependency list containing it fails the dependency-existence
pre-check with HTTP 400, reported as dependencies-not-found (an
InvalidReference), not by a dedicated self-dependency ValidationFailure.
In both cases no self-loop edge is ever committed: create and update
preserve loop-freedom of the dependency relation. -/
theorem c1_no_self_dependency :
    (∀ (db : DB) (id : Nat) (t : Todo) (req : UpdateReq) (D : List Nat),
      getTodo db id = some t →
      req.categoryId = none → req.userId = none → req.tagIds = none →
      req.removeNotes = [] → req.dependencies = some D → id ∈ D →
      depsMissingB db D = false →
      updateTodo db id req = .error .selfDependency ∧
        httpStatus .selfDependency = 400 ∧ classify .selfDependency = .validation) ∧
    (∀ (db : DB) (req : CreateReq),
      WF db → req.title ≠ "" → req.categoryId = none → req.userId = none →
      req.tagIds = [] → db.nextTodoId ∈ req.dependencies →
      createTodo db req = .error .someDependenciesNotFound ∧
        httpStatus .someDependenciesNotFound = 400 ∧
        classify .someDependenciesNotFound = .invalidRef) ∧
    (∀ (db : DB), WF db → (∀ e ∈ db.deps, e.1 ≠ e.2) →
      (∀ req db' r, createTodo db req = .ok (db', r) → ∀ e ∈ db'.deps, e.1 ≠ e.2) ∧
      (∀ id req db' r, updateTodo db id req = .ok (db', r) → ∀ e ∈ db'.deps, e.1 ≠ e.2)) := by
  refine ⟨?_, ?_, ?_⟩
  · intro db id t req D hget hcat huser htags hrn hdep hmem hdeps
    refine ⟨?_, rfl, rfl⟩
    have hself : selfDepB id D = true := by
      cases D with
      | nil => cases hmem
      | cons d rest => simp [selfDepB, hmem]
    unfold updateTodo
    rw [hget, hcat, huser, htags, hdep, hrn]
    simp [categoryMissingB, userMissingB, optList, tagsMissingB, hdeps, hself]
  · intro db req hwf htitle hcat huser htags hmem
    refine ⟨?_, rfl, rfl⟩
    have hdeps : depsMissingB db req.dependencies = true :=
      depsMissingB_true hwf hmem (fun t ht => Nat.ne_of_lt (hwf.2.1 t ht))
    unfold createTodo
    rw [if_neg htitle, hcat, huser, htags]
    simp [categoryMissingB, userMissingB, tagsMissingB, hdeps]
  · intro db hwf hloop
    constructor
    · intro req db' r hok e he
      obtain ⟨hdeps, hrt, htodos, hdepsEq⟩ := createTodo_ok_inv hok
      rw [hdepsEq] at he
      rcases mem_connectDeps _ _ _ he with h1 | ⟨d, hd, rfl⟩
      · exact hloop e h1
      · rcases depsMissingB_false hdeps with hnil | hcount
        · rw [hnil] at hd
          cases hd
        · obtain ⟨t', ht', hid⟩ := exists_of_count_eq db.todos req.dependencies hwf.1 hcount d hd
          have hlt : d < db.nextTodoId := hid ▸ hwf.2.1 t' ht'
          show db.nextTodoId ≠ d
          omega
    · intro id req db' r hok e he
      obtain ⟨t0, joins2, hget, htagM, hdepM, hselfF, hcircF, hadd, htodos, hjoins,
        htags2, husers, hcats, hnow, hdepsEq, hrt⟩ := updateTodo_ok_inv hok
      rw [hdepsEq] at he
      have he2 : e ∈ connectDeps db.deps id (optList req.dependencies) := by
        unfold removeDepsEdges at he
        split at he
        · exact he
        · exact (List.mem_filter.mp he).1
      rcases mem_connectDeps _ _ _ he2 with h1 | ⟨d, hd, rfl⟩
      · exact hloop e h1
      · have hnotin : id ∉ optList req.dependencies := by
          cases hL : optList req.dependencies with
          | nil =>
            rw [hL] at hd
            cases hd
          | cons x xs =>
            rw [hL] at hselfF
            simp [selfDepB] at hselfF
            simp only [List.mem_cons, not_or]
            exact hselfF
        show id ≠ d
        exact fun heq => hnotin (heq ▸ hd)

/-- C2: if B already directly depends on A, an update adding a dependency
edge from A to B is rejected by the circular-dependency check with
HTTP 400 and nothing is committed; and no create request can ever be in
this situation, because the created todo's id is fresh, so no todo can
already depend on it. -/
theorem c2_direct_circular_rejected :
    (∀ (db : DB) (A B : Nat) (tA0 tB0 : Todo) (req : UpdateReq) (D : List Nat),
      getTodo db A = some tA0 → getTodo db B = some tB0 →
      req.categoryId = none → req.userId = none → req.tagIds = none →
      req.removeNotes = [] → req.dependencies = some D →
      B ∈ D → A ∉ D → depsMissingB db D = false →
      (B, A) ∈ db.deps →
      updateTodo db A req = .error .circularDependency ∧
        httpStatus .circularDependency = 400 ∧
        classify .circularDependency = .validation) ∧
    (∀ (db : DB) (req : CreateReq) (db' : DB) (r : CreateResp),
      WF db → createTodo db req = .ok (db', r) → ∀ B, (B, r.todo.id) ∉ db.deps) := by
  constructor
  · intro db A B tA0 tB0 req D hgA hgB hcat huser htags hrn hdep hBD hAD hdeps hedge
    refine ⟨?_, rfl, rfl⟩
    have hself : selfDepB A D = false := by
      cases D with
      | nil => rfl
      | cons x xs => simp [selfDepB, hAD]
    have hBdep : B ∈ dependentIds db A := by
      unfold dependentIds
      simp only [List.mem_map]
      refine ⟨tB0, ?_, getTodo_id hgB⟩
      refine List.mem_filter.mpr ⟨getTodo_mem hgB, ?_⟩
      simp [getTodo_id hgB, hedge]
    have hcirc : circularB db A D = true := by
      cases D with
      | nil => cases hBD
      | cons x xs =>
        simp only [circularB, List.isEmpty_cons, Bool.not_false, Bool.true_and,
          List.any_eq_true]
        exact ⟨B, hBD, by simp [hBdep]⟩
    unfold updateTodo
    rw [hgA, hcat, huser, htags, hdep, hrn]
    simp [categoryMissingB, userMissingB, optList, tagsMissingB, hdeps, hself, hcirc]
  · intro db req db' r hwf hok B hmem
    obtain ⟨_, hrt, _, _⟩ := createTodo_ok_inv hok
    have hid : r.todo.id = db.nextTodoId := by rw [hrt]; rfl
    rw [hid] at hmem
    obtain ⟨t', ht', hteq⟩ := (hwf.2.2 _ hmem).2
    have hteq2 : t'.id = db.nextTodoId := hteq
    have h1 := hwf.2.1 t' ht'
    omega

/-- C10: the tag-join relation stays free of duplicate (todoId, tagId)
pairs across updates, and a tag-adding update is idempotent: a tag already
associated with the todo is skipped rather than re-inserted, so repeating
the same tag-adding update leaves the join relation unchanged. -/
theorem c10_tag_dedup_idempotent :
    (∀ (db : DB) (id : Nat) (req : UpdateReq) (db' : DB) (r : UpdateResp),
      (db.tagJoins.map tagKey).Nodup →
      updateTodo db id req = .ok (db', r) →
      (db'.tagJoins.map tagKey).Nodup) ∧
    (∀ (db : DB) (id : Nat) (l : List Nat) (db1 : DB) (r1 : UpdateResp),
      updateTodo db id (tagsOnlyReq l) = .ok (db1, r1) →
      ∃ db2 r2, updateTodo db1 id (tagsOnlyReq l) = .ok (db2, r2) ∧
        db2.tagJoins = db1.tagJoins) := by
  constructor
  · intro db id req db' r hn hok
    obtain ⟨t0, joins2, _, _, _, _, _, hadd, _, hjoins, _⟩ := updateTodo_ok_inv hok
    rw [hjoins]
    exact addTagsUpdate_nodup hadd (removeTagsJoins_nodup hn)
  · intro db id l db1 r1 hok
    obtain ⟨t0, joins2, hget, htagsM, _, _, _, hadd, htodos, hjoins, htags2, husers,
      hcats, hnow, _, _⟩ := updateTodo_ok_inv hok
    have hid0 := getTodo_id hget
    have hget1 : getTodo db1 id = some (applyPartial t0 (tagsOnlyReq l) db.now) := by
      unfold getTodo
      rw [htodos]
      have hidap : (applyPartial t0 (tagsOnlyReq l) db.now).id = id := by
        show t0.id = id
        exact hid0
      exact replace_find? hget hidap
    have hmemtags : ∀ tg ∈ l, ∃ j ∈ db1.tagJoins, j.todoId = id ∧ j.tagId = tg := by
      rw [hjoins]
      intro tg htg
      exact addTagsUpdate_mem hadd tg htg
    have htagsM1 : tagsMissingB db1 l = false := by
      unfold tagsMissingB at htagsM ⊢
      rw [htags2]
      exact htagsM
    have hadd1 : addTagsUpdate (removeTagsJoins db1 id (tagsOnlyReq l).removeTags) id db1.now
        (optList (tagsOnlyReq l).tagIds) = .ok db1.tagJoins := by
      have hrt : removeTagsJoins db1 id (tagsOnlyReq l).removeTags = db1.tagJoins := rfl
      rw [hrt]
      exact addTagsUpdate_all_present hmemtags
    have hstep : updateTodo db1 id (tagsOnlyReq l) =
        updateTx db1 id (applyPartial t0 (tagsOnlyReq l) db.now) (tagsOnlyReq l) := by
      unfold updateTodo
      rw [hget1]
      simp [categoryMissingB, userMissingB, depsMissingB, selfDepB, circularB,
        removeNotesMissingB, tagsOnlyReq, optList, htagsM1]
    obtain ⟨p, hpeq, hpj⟩ : ∃ p : DB × UpdateResp,
        updateTx db1 id (applyPartial t0 (tagsOnlyReq l) db.now) (tagsOnlyReq l) = .ok p ∧
        p.1.tagJoins = db1.tagJoins := by
      unfold updateTx
      rw [hadd1]
      exact ⟨_, rfl, rfl⟩
    exact ⟨p.1, p.2, hstep.trans hpeq, hpj⟩

/-- Store with two todos and no edges. -/
def dbTwo : DB := { todos := [tA, tB], nextTodoId := 3 }

/-- Store in which todo 2 directly depends on todo 1. -/
def dbEdge : DB := { todos := [tA, tB], deps := [(2, 1)], nextTodoId := 3 }

/-- The empty store. -/
def dbEmpty : DB := {}

/-- Result of the concrete cycle-closing update on dbCycle. -/
def c1pair : DB × UpdateResp := (updateTodo dbCycle 3 (depsOnlyReq [1])).toOption.getD default

theorem c1_witness :
    (updateTodo dbTwo 1 (depsOnlyReq [1]) = .error .selfDependency ∧
      httpStatus .selfDependency = 400 ∧ classify .selfDependency = .validation) ∧
    (createTodo dbEmpty { title := "alpha", dependencies := [1] } =
        .error .someDependenciesNotFound ∧
      httpStatus .someDependenciesNotFound = 400 ∧
      classify .someDependenciesNotFound = .invalidRef) ∧
    (3 : Nat) ≠ 1 :=
  ⟨c1_no_self_dependency.1 dbTwo 1 tA (depsOnlyReq [1]) [1] rfl rfl rfl rfl rfl rfl
      (by decide) (by decide),
   c1_no_self_dependency.2.1 dbEmpty { title := "alpha", dependencies := [1] }
      (by unfold WF; decide) (by decide) rfl rfl rfl (by decide),
   (c1_no_self_dependency.2.2 dbCycle (by unfold WF; decide) (by decide)).2 3
      (depsOnlyReq [1]) c1pair.1 c1pair.2 (by rfl) (3, 1) (by decide)⟩

/-- The claim as stated is false for create: with an empty store whose next
generated id is 1, creating a todo whose dependency list names that id is
rejected by the dependency-existence check as dependencies-not-found,
which under the spec taxonomy is an InvalidReference, not the claimed
self-dependency ValidationFailure. -/
theorem c1_counterexample :
    createTodo dbEmpty { title := "alpha", dependencies := [1] } =
      .error .someDependenciesNotFound ∧
    classify .someDependenciesNotFound ≠ .validation ∧
    (.someDependenciesNotFound : ApiError) ≠ .selfDependency :=
  ⟨rfl, by decide, by decide⟩

/-- Result of a concrete successful create against dbEdge. -/
def cpairE : DB × CreateResp := (createTodo dbEdge { title := "eps" }).toOption.getD default

theorem c2_witness :
    (updateTodo dbEdge 1 (depsOnlyReq [2]) = .error .circularDependency ∧
      httpStatus .circularDependency = 400 ∧ classify .circularDependency = .validation) ∧
    (2, cpairE.2.todo.id) ∉ dbEdge.deps :=
  ⟨c2_direct_circular_rejected.1 dbEdge 1 2 tA tB (depsOnlyReq [2]) [2] rfl rfl rfl rfl rfl
      rfl rfl (by decide) (by decide) (by decide) (by decide),
   c2_direct_circular_rejected.2 dbEdge { title := "eps" } cpairE.1 cpairE.2
      (by unfold WF; decide) (by rfl) 2⟩

/-- Result of a concrete create with all optional fields omitted. -/
def c4pair : DB × CreateResp := (createTodo dbEmpty { title := "tee" }).toOption.getD default

theorem c4_witness :
    c4pair.2.todo.completed = false ∧ c4pair.2.todo.priority = .MEDIUM ∧
    ∃ t, getTodo c4pair.1 c4pair.2.todo.id = some t ∧ t.completed = false ∧
      t.priority = .MEDIUM :=
  c4_create_defaults dbEmpty { title := "tee" } c4pair.1 c4pair.2
    (by unfold WF; decide) (by rfl) rfl

theorem c5_witness :
    ∃ db1 r1 db2 r2, toggleTodo dbTwo 1 = .ok (db1, r1) ∧ toggleTodo db1 1 = .ok (db2, r2) ∧
      (∃ t2, getTodo db2 1 = some t2 ∧ t2.completed = tA.completed) ∧
      ∃ h1 h2,
        db2.history.filter (fun x => x.todoId == 1) =
          dbTwo.history.filter (fun x => x.todoId == 1) ++ [h1, h2] ∧
        ((h1.action = "COMPLETED" ∧ h2.action = "REOPENED") ∨
          (h1.action = "REOPENED" ∧ h2.action = "COMPLETED")) :=
  c5_toggle_twice dbTwo 1 tA rfl

theorem c6_witness :
    ∃ db' r, toggleTodo dbTwo 2 = .ok (db', r) ∧
      r.todo.completed = !tB.completed ∧
      (∃ t', getTodo db' 2 = some t' ∧ t'.completed = !tB.completed) ∧
      r.uncompletedDependencies =
        (if !tB.completed then
          (dbTwo.todos.filter (fun d => decide ((2, d.id) ∈ dbTwo.deps))).filter
            (fun d => !d.completed)
        else []) :=
  c6_toggle_unconditional dbTwo 2 tB rfl

/-- A completed HIGH todo and an incomplete MEDIUM one. -/
def t7 : Todo := { id := 1, title := "alpha", completed := true, priority := .HIGH }

def db7 : DB := { todos := [t7, tB], nextTodoId := 3 }

def q7 : ListQuery := { completed := some true, priority := some .HIGH }

theorem c7_witness :
    SpecMatches db7 q7 t7 ∧
    (listTodos db7 q7).pagination.total = 1 ∧ (listTodos db7 q7).statsTotal = 2 :=
  ⟨(c7_list_filters db7 q7).1 t7 (by decide), by rfl, by rfl⟩

def c8req : UpdateReq := { title := some "zeta" }

/-- Result of a concrete title-only update on dbTwo. -/
def c8pair : DB × UpdateResp := (updateTodo dbTwo 1 c8req).toOption.getD default

theorem c8_witness :
    ∃ t', getTodo c8pair.1 1 = some t' ∧
      (c8req.title = none → t'.title = tA.title) ∧
      (c8req.description = none → t'.description = tA.description) ∧
      (c8req.completed = none → t'.completed = tA.completed) ∧
      (c8req.priority = none → t'.priority = tA.priority) ∧
      (c8req.categoryId = none → t'.categoryId = tA.categoryId) ∧
      (c8req.userId = none → t'.userId = tA.userId) :=
  c8_update_frame dbTwo 1 c8req c8pair.1 c8pair.2 tA (by rfl) rfl

/-- Store with child rows and dependency edges incident to todo 1. -/
def dbDel : DB :=
  { todos := [tA, tB]
    tags := [{ id := 5, name := "u" }]
    tagJoins := [⟨1, 5, 0⟩, ⟨2, 5, 0⟩]
    notes := [⟨1, "n", 1, 0⟩]
    history := [⟨1, 1, "CREATED", "x", 0⟩, ⟨2, 2, "CREATED", "x", 0⟩]
    attachments := [⟨1, "f", "p", "m", 1⟩]
    deps := [(2, 1), (1, 2)]
    nextTodoId := 3
    nextNoteId := 2
    nextHistoryId := 3 }

/-- Result of deleting todo 1 from dbDel. -/
def c9pair : DB × DeleteResp := (deleteTodo dbDel 1).toOption.getD default

theorem c9_witness :
    c9pair.1.notes.countP (fun n => n.todoId == 1) = 0 ∧
    c9pair.1.history.countP (fun x => x.todoId == 1) = 0 ∧
    c9pair.1.attachments.countP (fun a => a.todoId == 1) = 0 ∧
    c9pair.1.tagJoins.countP (fun j => j.todoId == 1) = 0 ∧
    (∀ e ∈ c9pair.1.deps, e.1 ≠ 1 ∧ e.2 ≠ 1) ∧
    getTodo c9pair.1 1 = none :=
  c9_delete_cascade dbDel 1 c9pair.1 c9pair.2 (by rfl)

/-- Store with one todo and one tag. -/
def dbTag : DB := { todos := [tA], tags := [{ id := 7, name := "g" }], nextTodoId := 2 }

/-- Result of the first tag-adding update on dbTag. -/
def c10pair : DB × UpdateResp := (updateTodo dbTag 1 (tagsOnlyReq [7])).toOption.getD default

theorem c10_witness :
    (c10pair.1.tagJoins.map tagKey).Nodup ∧
    ∃ db2 r2, updateTodo c10pair.1 1 (tagsOnlyReq [7]) = .ok (db2, r2) ∧
      db2.tagJoins = c10pair.1.tagJoins :=
  ⟨c10_tag_dedup_idempotent.1 dbTag 1 (tagsOnlyReq [7]) c10pair.1 c10pair.2
      (by decide) (by rfl),
   c10_tag_dedup_idempotent.2 dbTag 1 [7] c10pair.1 c10pair.2 (by rfl)⟩

end TodoApi
